import Mathlib

/-!
Verification of pynetdicom's Association manager (src/pynetdicom/association.py)
against its natural-language specification.

The Association class owns one DUL+ACSE+DIMSE instance per connection, runs the
association lifecycle in a worker thread, and dispatches completed DIMSE messages
to SOP-class service handlers.  The definitions below are a shallow embedding of
the methods of that class: control flow is translated branch for branch, and the
calls the class makes into its collaborator providers (ACSE, DIMSE, DUL) and the
callbacks it fires on the application entity are recorded as explicit actions in
an emitted trace.  Collaborator modules that are not part of the source under
study (ACSEprovider, DULprovider, SOPclass, applicationentity) are modelled from
the specification where a claim depends on them; each such definition carries a
doc comment saying so.
-/

namespace Pynetdicom

/-- A DICOM unique identifier (SOP class UID, transfer syntax UID, ...). -/
abbrev UID := String

/-- Modelled from the spec: SOPclass.py (UID2SOPClass) is not in src.  Per the
specification's design notes the service handler class is resolved dynamically
from an identifier string, one handler class per SOP class identifier, so a
handler class is identified by the SOP class UID it is registered under. -/
structure SOPClassId where
  uid : UID
deriving DecidableEq, Repr

/-- Modelled from the spec: SOPclass.UID2SOPClass resolves the handler class
registered for a SOP class UID. -/
def UID2SOPClass (uid : UID) : SOPClassId := ⟨uid⟩

/-- Modelled from the spec: DULparameters.py is not in src.  The associate
rejection result codes used by Association.run. -/
inductive RejectResult where
  | rejectedTransient
  | rejectedPermanent
deriving DecidableEq, Repr

/-- Modelled from the spec: DULparameters.py is not in src.  The associate
rejection diagnostic codes used by Association.run. -/
inductive RejectDiag where
  | localLimitExceeded
  | noReasonGiven
deriving DecidableEq, Repr

/-- The constant A_ASSOCIATE_Result_RejectedTransient from DULparameters. -/
def A_ASSOCIATE_Result_RejectedTransient : RejectResult := .rejectedTransient

/-- The constant A_ASSOCIATE_Diag_LocalLimitExceeded from DULparameters. -/
def A_ASSOCIATE_Diag_LocalLimitExceeded : RejectDiag := .localLimitExceeded

/-- An accepted presentation context as stored in
ACSE.AcceptedPresentationContexts: the tuple
(context[0], context[1], context[2]) = (context id, abstract syntax UID,
transfer syntax UID). -/
structure AcceptedContext where
  pcid : Nat
  abstractUID : UID
  transferUID : UID
deriving DecidableEq, Repr

/-- An entry of Association.SOPClassesAsSCP / SOPClassesAsSCU: the tuple
(pcid, UID2SOPClass(uid), transfer syntax) built by Association.run from an
accepted presentation context. -/
structure SOPClassEntry where
  pcid : Nat
  sopclass : SOPClassId
  transferUID : UID
deriving DecidableEq, Repr

/-- Association.run lines 235-239 / 280-284: build the supported SOP class
table from ACSE.AcceptedPresentationContexts. -/
def buildSOPClasses (accepted : List AcceptedContext) : List SOPClassEntry :=
  accepted.map (fun context =>
    { pcid := context.pcid
      sopclass := UID2SOPClass context.abstractUID
      transferUID := context.transferUID })

/-- The mode attribute of an Association: acting as the association Acceptor
(SCP) or Requestor (SCU). -/
inductive Mode where
  | acceptor
  | requestor
deriving DecidableEq, Repr

/-- A connected client socket handed to an acceptor Association.  Its content
is irrelevant to the control flow under study; a Python socket object is always
truthy. -/
structure Socket where
  id : Nat
deriving DecidableEq, Repr

/-- The peer AE description handed to a requestor Association: AE title, host
and port of the peer, as documented for the RemoteAE parameter. -/
structure PeerAE where
  aeTitle : String
  host : String
  port : Nat
deriving DecidableEq, Repr

/-- The two ValueError raises of Association.init: both parameters absent, or
both parameters given. -/
inductive InitError where
  | bothMissing
  | bothGiven
deriving DecidableEq, Repr

/-- The observable result of a completed Association construction. -/
structure InitState where
  mode : Mode
  daemon : Bool
  started : Bool
  assocKill : Bool
  associationEstablished : Bool
deriving DecidableEq, Repr

/-- Association.init translated branch for branch: raise ValueError when
ClientSocket and RemoteAE are both None; raise ValueError when both are given;
otherwise set mode (the ClientSocket branch assigns Acceptor, the RemoteAE
branch then overwrites with Requestor when RemoteAE is given), initialise the
kill and established flags, mark the thread daemonic and start it. -/
def associationInit (clientSocket : Option Socket) (remoteAE : Option PeerAE) :
    Except InitError InitState :=
  if clientSocket.isNone ∧ remoteAE.isNone then
    .error .bothMissing
  else if clientSocket.isSome ∧ remoteAE.isSome then
    .error .bothGiven
  else
    .ok { mode := if remoteAE.isSome then .requestor else .acceptor
          daemon := true
          started := true
          assocKill := false
          associationEstablished := false }

/-- Thread-level effects of Association.init: start() is reached only after
both ValueError checks pass. -/
inductive InitAction where
  | threadStart
deriving DecidableEq, Repr

/-- The thread actions performed by Association.init: none when a ValueError is
raised, a single start() of the daemon worker otherwise. -/
def associationInitActions (clientSocket : Option Socket)
    (remoteAE : Option PeerAE) : List InitAction :=
  match associationInit clientSocket remoteAE with
  | .error _ => []
  | .ok _ => [.threadStart]

/-- A DIMSE message as seen by the main loop: the code reads only its
AffectedSOPClassUID field. -/
structure Msg where
  affectedSOPClassUID : UID
deriving DecidableEq, Repr

/-- A proposed presentation context, an entry of
AE.PresentationContextDefinitionList: (context id, abstract syntax UID,
proposed transfer syntax UIDs). -/
structure ProposedContext where
  pcid : Nat
  abstractUID : UID
  tsUIDs : List UID
deriving DecidableEq, Repr

/-- An acceptable presentation context, an entry of
AE.AcceptablePresentationContexts: its element 0 is the SOP class UID, read by
the role-negotiation loop of Association.run. -/
structure AcceptableContext where
  sopClassUID : UID
  tsUIDs : List UID
deriving DecidableEq, Repr

/-- A SCP_SCU_RoleSelectionParameters item as built by the requestor path of
Association.run: SOPClassUID from the context, SCURole and SCPRole fields. -/
structure RoleSelectionItem where
  sopClassUID : UID
  scuRole : Nat
  scpRole : Nat
deriving DecidableEq, Repr

/-- The state of the SOP class handler object that the main loop runs in SCP
mode: its class comes from UID2SOPClass of the message UID; pcid, sopclass and
transferUID are assigned only for table entries matching the received
presentation-context id and stay unset otherwise; maxpdulength is copied from
ACSE.MaxPDULength. -/
structure SCPHandlerState where
  cls : SOPClassId
  pcid : Option Nat
  sopclass : Option SOPClassId
  transferUID : Option UID
  maxpdulength : Nat
deriving DecidableEq, Repr

/-- The observable actions of an Association worker: calls into the ACSE, DIMSE
and DUL providers and callbacks fired on the application entity.  The
reportFailureStatus action is vocabulary for the specified answered-with-a-
failure-status behaviour on dispatch failure; the translation of the source
never emits it. -/
inductive Action where
  | acseAccept (result : Option RejectResult) (diag : Option RejectDiag)
  | acseRequest (proposed : List ProposedContext) (ext : List RoleSelectionItem)
  | acseAbort (reason : Nat)
  | acseRelease (reason : Nat)
  | onAssociationAccepted
  | onAssociationEstablished
  | onAssociationReleased
  | onAssociationAborted
  | onAssociationRejected
  | onAssociateResponse
  | dispatchSCP (handler : SCPHandlerState)
  | reportFailureStatus (pcid : Nat)
  | scuRun (handler : SCPHandlerState)
  | dulKill
  | killCalled
  | dulStopAttempt (success : Bool)
deriving DecidableEq, Repr

/-- The mutable flags of the Association worker that the main loop reads and
writes: the kill flag and whether the DUL provider has been stopped. -/
structure WorkerState where
  assocKill : Bool
  dulStopped : Bool
deriving DecidableEq, Repr

/-- The retry loop of Association.Kill searches for the first DUL.Stop() call
that succeeds: fuelled structural recursion that tries attempt k, then k+1 and
so on.  The loop of the source terminates exactly when some attempt succeeds;
the fuel is the index of a known successful attempt, so the search never
exhausts it. -/
def firstStopAux (stopResult : Nat → Bool) : Nat → Nat → Nat
  | k, 0 => k
  | k, fuel + 1 => if stopResult k then k else firstStopAux stopResult (k + 1) fuel

/-- The number of failed DUL.Stop() calls Association.Kill makes before the
first successful one, given that attempt number bound succeeds. -/
def killStopCount (stopResult : Nat → Bool) (bound : Nat) : Nat :=
  firstStopAux stopResult 0 bound

/-- The trace of DUL.Stop() attempts made by Association.Kill: every attempt up
to and including the first successful one. -/
def associationKillTrace (stopResult : Nat → Bool) (bound : Nat) : List Action :=
  (List.range (killStopCount stopResult bound)).map
      (fun k => Action.dulStopAttempt (stopResult k))
    ++ [Action.dulStopAttempt (stopResult (killStopCount stopResult bound))]

/-- Association.Kill, lines 168-172, as a state transformer: the kill flag is
set first, then DUL.Stop() is called repeatedly (sleeping between attempts)
and the method returns only once a call has succeeded.  stopResult n is the
outcome of the n-th DUL.Stop() call. -/
def associationKill (stopResult : Nat → Bool) (bound : Nat) :
    WorkerState × List Action :=
  ({ assocKill := true
     dulStopped := stopResult (killStopCount stopResult bound) },
   associationKillTrace stopResult bound)

/-- Association.Abort, lines 186-195: issue the abort primitive through
ACSE.Abort(reason), then Kill().  It takes no precondition on the worker
state: the method is callable from any state and its result does not depend on
the prior state. -/
def associationAbort (reason : Nat) (stopResult : Nat → Bool) (bound : Nat)
    (_prior : WorkerState) : WorkerState × List Action :=
  let killed := associationKill stopResult bound
  (killed.1, Action.acseAbort reason :: killed.2)

/-- Association.SCU, lines 133-147: look up the SOP class of the dataset in
SOPClassesAsSCU by handler class; comprehension-then-index raises IndexError
(re-raised as the unsupported-as-SCU Exception) when no entry matches, else the
first matching entry configures the handler object before its SCU method runs.
The outcome is the configured handler or the exception message; the action list
is empty on the error path (no DIMSE message is submitted) and runs the
configured handler otherwise. -/
def associationSCU (scuTable : List SOPClassEntry) (maxPDULength : Nat)
    (dsSOPClassUID : UID) : Except String SCPHandlerState × List Action :=
  let cls := UID2SOPClass dsSOPClassUID
  match scuTable.filter (fun x => x.sopclass = cls) with
  | [] =>
    (.error ("SOP Class " ++ dsSOPClassUID ++ " not supported as SCU"), [])
  | e :: _ =>
    let obj : SCPHandlerState :=
      { cls := cls
        pcid := some e.pcid
        sopclass := some e.sopclass
        transferUID := some e.transferUID
        maxpdulength := maxPDULength }
    (.ok obj, [.scuRun obj])

/-- Modelled from the spec: applicationentity.py is not in src.  Per the
specification's capacity property, the application entity registers each
arriving inbound association in AE.Associations before its worker thread
proceeds, so at the capacity check of Association.run the arriving request is
already included in len(AE.Associations). -/
def poolCountAtCheck (activeBefore : Nat) : Nat := activeBefore + 1

/-- Modelled from the spec: ACSEprovider.py is not in src.  Per the
specification, ACSE.Accept rejects the whole association when result and diag
are pre-set and returns absent both then and on a malformed or missing
request, so it returns an association exactly when the inbound request is
well-formed and no rejection was pre-set. -/
def acseAcceptReturnsAssoc (presetReject : Bool) (requestOK : Bool) : Bool :=
  requestOK && !presetReject

/-- Inputs to the acceptor establishment path of Association.run, lines
209-239: the pool size and configured maximum read from the application
entity, whether a well-formed associate request arrived, and the accepted
presentation contexts that ACSE.Accept negotiates. -/
structure AcceptorInputs where
  numAssociations : Nat
  maxAssociations : Nat
  requestOK : Bool
  acceptedContexts : List AcceptedContext
deriving DecidableEq, Repr

/-- The observable result of an establishment path of Association.run: the
worker flags, the AssociationEstablished and AssociationRefused attributes,
the SOP class table built, whether control reaches the main loop, and the
emitted trace. -/
structure EstablishResult where
  state : WorkerState
  established : Bool
  refused : Option Bool
  sopTable : List SOPClassEntry
  entersMainLoop : Bool
  actions : List Action
deriving DecidableEq, Repr

/-- Acceptor establishment, Association.run lines 209-239 and 286-290: when
len(AE.Associations) exceeds AE.MaxNumberOfAssociations, result and diag are
pre-set to rejected-transient / local-limit-exceeded; ACSE.Accept is called
with them; if it returns None the worker Kills itself and returns, otherwise
the accepted callback fires, SOPClassesAsSCP is built, AssociationEstablished
is set and the established callback fires before the main loop.  Kill's
postcondition (kill flag set, DUL stopped; proved of associationKill) stands
in for the inlined retry loop. -/
def acceptorEstablish (inp : AcceptorInputs) : EstablishResult :=
  let preset : Option (RejectResult × RejectDiag) :=
    if inp.numAssociations > inp.maxAssociations then
      some (A_ASSOCIATE_Result_RejectedTransient,
            A_ASSOCIATE_Diag_LocalLimitExceeded)
    else
      none
  let acceptAct := Action.acseAccept (preset.map Prod.fst) (preset.map Prod.snd)
  if acseAcceptReturnsAssoc preset.isSome inp.requestOK then
    { state := { assocKill := false, dulStopped := false }
      established := true
      refused := none
      sopTable := buildSOPClasses inp.acceptedContexts
      entersMainLoop := true
      actions := [acceptAct, .onAssociationAccepted, .onAssociationEstablished] }
  else
    { state := { assocKill := true, dulStopped := true }
      established := false
      refused := none
      sopTable := []
      entersMainLoop := false
      actions := [acceptAct, .killCalled] }

/-- Association.run lines 244-251: one SCP_SCU_RoleSelectionParameters item per
entry of AE.AcceptablePresentationContexts, carrying that entry's element 0
(the SOP class UID) with SCURole 0 and SCPRole 1. -/
def buildRoleExt (acceptable : List AcceptableContext) : List RoleSelectionItem :=
  acceptable.map (fun ii =>
    { sopClassUID := ii.sopClassUID, scuRole := 0, scpRole := 1 })

/-- The association response primitive returned by ACSE.Request, of which the
requestor path reads the Result attribute. -/
structure AssocResponse where
  result : String
deriving DecidableEq, Repr

/-- Inputs to the requestor establishment path of Association.run, lines
242-290: the two presentation-context lists read from the application entity,
the reply of ACSE.Request (the truthiness of its first component and the
optional response primitive), whether the application entity defines an
OnAssociateResponse attribute, and the contexts accepted on success. -/
structure RequestorInputs where
  acceptable : List AcceptableContext
  proposed : List ProposedContext
  ans : Bool
  response : Option AssocResponse
  hasOnAssociateResponse : Bool
  acceptedContexts : List AcceptedContext
deriving DecidableEq, Repr

/-- Requestor establishment, Association.run lines 242-290: build the role
extended-negotiation items from AE.AcceptablePresentationContexts, call
ACSE.Request with AE.PresentationContextDefinitionList and those items; on a
truthy reply fire the optional OnAssociateResponse callback and, when the
response Result is Accepted, the accepted callback, build SOPClassesAsSCU, set
AssociationEstablished and fire the established callback; on a falsy reply
fire the rejected callback when a response is present, set AssociationRefused,
Kill the DUL and return without reaching the main loop. -/
def requestorEstablish (inp : RequestorInputs) : EstablishResult :=
  let ext := buildRoleExt inp.acceptable
  let reqAct := Action.acseRequest inp.proposed ext
  if inp.ans then
    let respActs :=
      (if inp.hasOnAssociateResponse then [Action.onAssociateResponse] else [])
        ++ (if inp.response.map (fun r => r.result) = some "Accepted" then
              [Action.onAssociationAccepted]
            else
              [])
    { state := { assocKill := false, dulStopped := false }
      established := true
      refused := none
      sopTable := buildSOPClasses inp.acceptedContexts
      entersMainLoop := true
      actions := reqAct :: respActs ++ [.onAssociationEstablished] }
  else
    { state := { assocKill := false, dulStopped := false }
      established := false
      refused := some true
      sopTable := []
      entersMainLoop := false
      actions := reqAct
        :: (match inp.response with
            | some _ => [Action.onAssociationRejected]
            | none => [])
        ++ [Action.dulKill] }

/-- Inputs read by one iteration of the main loop of Association.run: the
reply of the non-blocking DIMSE.Receive poll (a completed message together
with its presentation-context id, when one is ready), the ACSE CheckRelease
and CheckAbort polls, DUL.isAlive and DUL.idle_timer_expired. -/
structure LoopInputs where
  recv : Option (Msg × Nat)
  checkRelease : Bool
  checkAbort : Bool
  dulAlive : Bool
  idleExpired : Bool
deriving DecidableEq, Repr

/-- The result of one main-loop iteration: the worker state after it, the
emitted trace, and whether the iteration executed the return statement of the
abort branch. -/
structure LoopIterResult where
  state : WorkerState
  actions : List Action
  returned : Bool
deriving DecidableEq, Repr

/-- Association.run lines 306-314: the for loop over SOPClassesAsSCP assigns
pcid, sopclass and transfersyntax onto the handler object for every entry
whose pcid equals the received presentation-context id, so the last matching
entry wins and matching_sop is true exactly when some entry matches. -/
def scpLookup (table : List SOPClassEntry) (pcid : Nat) :
    Option SOPClassEntry :=
  table.foldl (fun acc e => if e.pcid = pcid then some e else acc) none

/-- The postcondition of Association.Kill as a state change: the kill flag is
set and the DUL provider is stopped (the retry loop itself is the
associationKill definition above). -/
def killEffect (_s : WorkerState) : WorkerState :=
  { assocKill := true, dulStopped := true }

/-- One iteration of the main loop of Association.run, lines 293-348,
translated branch for branch for a given mode, SOPClassesAsSCP table and
ACSE.MaxPDULength.  In acceptor mode: when DIMSE.Receive yields a completed
message, a handler object of class UID2SOPClass(msg.AffectedSOPClassUID) is
built, configured from the table entries matching the received
presentation-context id (the no-match case is an explicit pass), given the
negotiated maximum PDU length, and run in SCP mode; then CheckRelease fires
the released callback and Kill; CheckAbort fires the aborted callback, Kill
and return; a dead DUL or an expired idle timer each Kill.  In requestor mode
the body only sleeps. -/
def mainLoopIter (mode : Mode) (table : List SOPClassEntry) (maxPDU : Nat)
    (inp : LoopInputs) (s : WorkerState) : LoopIterResult :=
  if mode = .acceptor then
    let msgActs : List Action :=
      match inp.recv with
      | some (msg, pcid) =>
        let cfg := scpLookup table pcid
        [Action.dispatchSCP
          { cls := UID2SOPClass msg.affectedSOPClassUID
            pcid := cfg.map (fun e => e.pcid)
            sopclass := cfg.map (fun e => e.sopclass)
            transferUID := cfg.map (fun e => e.transferUID)
            maxpdulength := maxPDU }]
      | none => []
    let relActs : List Action :=
      if inp.checkRelease then [.onAssociationReleased, .killCalled] else []
    let s1 := if inp.checkRelease then killEffect s else s
    if inp.checkAbort then
      { state := killEffect s1
        actions := msgActs ++ relActs ++ [.onAssociationAborted, .killCalled]
        returned := true }
    else
      let aliveActs : List Action := if inp.dulAlive then [] else [.killCalled]
      let s2 := if inp.dulAlive then s1 else killEffect s1
      let idleActs : List Action := if inp.idleExpired then [.killCalled] else []
      let s3 := if inp.idleExpired then killEffect s2 else s2
      { state := s3
        actions := msgActs ++ relActs ++ aliveActs ++ idleActs
        returned := false }
  else
    { state := s, actions := [], returned := false }

/-- The while loop of Association.run over a stream of per-iteration inputs:
the guard rereads the kill flag before each iteration, and the abort branch's
return statement leaves the loop immediately. -/
def runMainLoop (mode : Mode) (table : List SOPClassEntry) (maxPDU : Nat) :
    List LoopInputs → WorkerState → WorkerState × List Action
  | [], s => (s, [])
  | inp :: rest, s =>
    if s.assocKill then
      (s, [])
    else
      let r := mainLoopIter mode table maxPDU inp s
      if r.returned then
        (r.state, r.actions)
      else
        let after := runMainLoop mode table maxPDU rest r.state
        (after.1, r.actions ++ after.2)

/-- The handler state carried by the first dispatchSCP action of a trace, when
one exists. -/
def dispatchedHandler (actions : List Action) : Option SCPHandlerState :=
  actions.findSome? (fun a =>
    match a with
    | .dispatchSCP h => some h
    | _ => none)

/-- The payload of the first acseRequest action of a trace, when one exists:
the proposed presentation contexts and the extended-negotiation items passed
to ACSE.Request. -/
def requestSent (actions : List Action) :
    Option (List ProposedContext × List RoleSelectionItem) :=
  actions.findSome? (fun a =>
    match a with
    | .acseRequest proposed ext => some (proposed, ext)
    | _ => none)

/-- Whether a trace contains a report of a failure status to the peer. -/
def reportsFailure (actions : List Action) : Bool :=
  actions.any (fun a =>
    match a with
    | .reportFailureStatus _ => true
    | _ => false)

/-- Whether an Association construction raised a ValueError. -/
def initIsError : Except InitError InitState → Bool
  | .error _ => true
  | .ok _ => false

/-- The mode attribute of a completed Association construction. -/
def initModeOf : Except InitError InitState → Option Mode
  | .error _ => none
  | .ok s => some s.mode

/-- The daemon flag of a completed Association construction. -/
def initDaemonOf : Except InitError InitState → Option Bool
  | .error _ => none
  | .ok s => some s.daemon

/-- Whether the worker thread of a completed Association construction was
started. -/
def initStartedOf : Except InitError InitState → Option Bool
  | .error _ => none
  | .ok s => some s.started

section Theorems

/-- The search for the first successful DUL.Stop() call: when attempt number
k + fuel succeeds, the search starting at attempt k returns a successful
attempt, and every earlier attempt from k on failed. -/
theorem firstStopAux_success (stopResult : Nat → Bool) :
    ∀ (fuel k : Nat), stopResult (k + fuel) = true →
      stopResult (firstStopAux stopResult k fuel) = true ∧
      k ≤ firstStopAux stopResult k fuel ∧
      ∀ j, k ≤ j → j < firstStopAux stopResult k fuel → stopResult j = false := by
  intro fuel
  induction fuel with
  | zero =>
    intro k h
    refine ⟨by simpa using h, Nat.le_refl k, ?_⟩
    intro j hkj hjk
    simp only [firstStopAux] at hjk
    exact absurd (Nat.lt_of_le_of_lt hkj hjk) (Nat.lt_irrefl k)
  | succ fuel ih =>
    intro k h
    by_cases hk : stopResult k = true
    · refine ⟨?_, ?_, ?_⟩ <;> simp [firstStopAux, hk]
      intro j hkj hjk
      exact absurd (Nat.lt_of_le_of_lt hkj hjk) (Nat.lt_irrefl k)
    · have hk' : stopResult k = false := by
        cases hcase : stopResult k
        · rfl
        · exact absurd hcase hk
      have h2 : stopResult (k + 1 + fuel) = true := by
        have harith : k + (fuel + 1) = k + 1 + fuel := by omega
        rwa [harith] at h
      obtain ⟨ha, hb, hc⟩ := ih (k + 1) h2
      refine ⟨?_, ?_, ?_⟩
      · simpa [firstStopAux, hk'] using ha
      · simp only [firstStopAux, hk']
        simp only [Bool.false_eq_true, if_false]
        exact Nat.le_trans (Nat.le_succ k) hb
      · intro j hkj hjlt
        simp only [firstStopAux, hk', Bool.false_eq_true, if_false] at hjlt
        rcases Nat.eq_or_lt_of_le hkj with heq | hlt
        · rw [heq] at hk'
          exact hk'
        · exact hc j hlt hjlt

/-- The while loop of Association.run runs no iteration once the kill flag is
set. -/
theorem runMainLoop_of_killed (mode : Mode) (table : List SOPClassEntry)
    (maxPDU : Nat) (inputs : List LoopInputs) (s : WorkerState)
    (hs : s.assocKill = true) :
    runMainLoop mode table maxPDU inputs s = (s, []) := by
  cases inputs with
  | nil => rfl
  | cons inp rest => simp [runMainLoop, hs]

/-- After one acceptor main-loop iteration, the kill flag holds exactly when it
already held or one of the four teardown polls fired; the DUL is stopped under
the same condition; and the iteration returned exactly when the abort poll
fired. -/
theorem mainLoopIter_flags (table : List SOPClassEntry) (maxPDU : Nat)
    (inp : LoopInputs) (s : WorkerState) :
    (mainLoopIter .acceptor table maxPDU inp s).state.assocKill =
      (s.assocKill || inp.checkRelease || inp.checkAbort || !inp.dulAlive
        || inp.idleExpired) ∧
    (mainLoopIter .acceptor table maxPDU inp s).state.dulStopped =
      (s.dulStopped || inp.checkRelease || inp.checkAbort || !inp.dulAlive
        || inp.idleExpired) ∧
    (mainLoopIter .acceptor table maxPDU inp s).returned = inp.checkAbort := by
  obtain ⟨recv, cr, ca, da, ie⟩ := inp
  cases cr <;> cases ca <;> cases da <;> cases ie <;>
    simp [mainLoopIter, killEffect]

/-- C9: Association construction raises ValueError exactly when ClientSocket
and RemoteAE are both absent or both present, and then starts no worker
thread; otherwise the mode is Acceptor exactly when ClientSocket is provided
and Requestor exactly when RemoteAE is provided, and the worker thread is
started as a daemon. -/
theorem assoc_init_characterization (cs : Option Socket) (ra : Option PeerAE) :
    initIsError (associationInit cs ra) = (cs.isSome == ra.isSome) ∧
    associationInitActions cs ra =
      (if cs.isSome == ra.isSome then [] else [InitAction.threadStart]) ∧
    (initModeOf (associationInit cs ra) = some Mode.acceptor ↔
      (cs.isSome = true ∧ ra.isSome = false)) ∧
    (initModeOf (associationInit cs ra) = some Mode.requestor ↔
      (ra.isSome = true ∧ cs.isSome = false)) ∧
    initDaemonOf (associationInit cs ra) =
      (if cs.isSome == ra.isSome then none else some true) ∧
    initStartedOf (associationInit cs ra) =
      (if cs.isSome == ra.isSome then none else some true) := by
  cases cs <;> cases ra <;>
    simp [associationInit, associationInitActions, initIsError, initModeOf,
      initDaemonOf, initStartedOf]

/-- C10: Association.SCU raises the unsupported-as-SCU exception, submitting
nothing to DIMSE, when the SOP class of the dataset has no entry in the
SOP classes negotiated for SCU use; otherwise the handler object runs its SCU
method configured with the first matching entry's presentation-context id and
transfer syntax and with the negotiated maximum PDU length. -/
theorem assoc_scu_dispatch (scuTable : List SOPClassEntry) (maxPDU : Nat)
    (uid : UID) :
    (scuTable.filter (fun x => x.sopclass = UID2SOPClass uid) = [] →
      associationSCU scuTable maxPDU uid =
        (.error ("SOP Class " ++ uid ++ " not supported as SCU"), [])) ∧
    (∀ e, (scuTable.filter (fun x => x.sopclass = UID2SOPClass uid)).head? =
        some e →
      associationSCU scuTable maxPDU uid =
        (.ok { cls := UID2SOPClass uid
               pcid := some e.pcid
               sopclass := some e.sopclass
               transferUID := some e.transferUID
               maxpdulength := maxPDU },
         [Action.scuRun
           { cls := UID2SOPClass uid
             pcid := some e.pcid
             sopclass := some e.sopclass
             transferUID := some e.transferUID
             maxpdulength := maxPDU }])) := by
  constructor
  · intro hempty
    simp [associationSCU, hempty]
  · intro e he
    cases hfil : scuTable.filter (fun x => x.sopclass = UID2SOPClass uid) with
    | nil => rw [hfil] at he; simp at he
    | cons hd tl =>
      rw [hfil] at he
      simp at he
      subst he
      simp [associationSCU, hfil]

/-- C10 witness: on an empty SCU table the exception is raised with no DIMSE
submission; with the verification class negotiated at context 1 the handler
runs configured with that context and transfer syntax. -/
theorem assoc_scu_dispatch_witness :
    associationSCU [] 16384 "1.2.840.10008.1.1" =
      (.error "SOP Class 1.2.840.10008.1.1 not supported as SCU", []) ∧
    associationSCU
        [{ pcid := 1
           sopclass := UID2SOPClass "1.2.840.10008.1.1"
           transferUID := "1.2.840.10008.1.2" }] 16384 "1.2.840.10008.1.1" =
      (.ok { cls := UID2SOPClass "1.2.840.10008.1.1"
             pcid := some 1
             sopclass := some (UID2SOPClass "1.2.840.10008.1.1")
             transferUID := some "1.2.840.10008.1.2"
             maxpdulength := 16384 },
       [Action.scuRun
         { cls := UID2SOPClass "1.2.840.10008.1.1"
           pcid := some 1
           sopclass := some (UID2SOPClass "1.2.840.10008.1.1")
           transferUID := some "1.2.840.10008.1.2"
           maxpdulength := 16384 }]) := by
  constructor
  · exact (assoc_scu_dispatch [] 16384 "1.2.840.10008.1.1").1 rfl
  · exact (assoc_scu_dispatch
      [{ pcid := 1
         sopclass := UID2SOPClass "1.2.840.10008.1.1"
         transferUID := "1.2.840.10008.1.2" }] 16384 "1.2.840.10008.1.1").2
      { pcid := 1
        sopclass := UID2SOPClass "1.2.840.10008.1.1"
        transferUID := "1.2.840.10008.1.2" }
      (by decide)

/-- C5: Association.Abort, callable from any worker state, first issues the
abort primitive to ACSE and then returns only after the DUL provider has been
stopped: its trace is the ACSE abort followed by every failed DUL.Stop()
attempt and ends with the successful one, and the final state has the kill
flag set and the DUL stopped. -/
theorem abort_stops_dul (reason bound : Nat) (stopResult : Nat → Bool)
    (prior : WorkerState) (h : stopResult bound = true) :
    (associationAbort reason stopResult bound prior).1.assocKill = true ∧
    (associationAbort reason stopResult bound prior).1.dulStopped = true ∧
    (associationAbort reason stopResult bound prior).2 =
      Action.acseAbort reason ::
        ((List.range (killStopCount stopResult bound)).map
            (fun _ => Action.dulStopAttempt false)
          ++ [Action.dulStopAttempt true]) := by
  have h0 : stopResult (0 + bound) = true := by simpa using h
  obtain ⟨hsucc, -, hfail⟩ := firstStopAux_success stopResult bound 0 h0
  have hcount : stopResult (killStopCount stopResult bound) = true := hsucc
  refine ⟨rfl, ?_, ?_⟩
  · simpa [associationAbort, associationKill] using hcount
  · simp only [associationAbort, associationKill, associationKillTrace]
    have hmap : (List.range (killStopCount stopResult bound)).map
        (fun k => Action.dulStopAttempt (stopResult k)) =
        (List.range (killStopCount stopResult bound)).map
          (fun _ => Action.dulStopAttempt false) := by
      apply List.map_congr_left
      intro k hk
      rw [hfail k (Nat.zero_le k) (List.mem_range.mp hk)]
    rw [hmap, hcount]

/-- C5 witness: with DUL.Stop() failing twice before succeeding, Abort(7) from
an arbitrary state issues the ACSE abort, records both failed stop attempts
and the final successful one, and ends killed with the DUL stopped. -/
theorem abort_stops_dul_witness :
    (associationAbort 7 (fun n => decide (2 ≤ n)) 2
        { assocKill := false, dulStopped := false }).1.assocKill = true ∧
    (associationAbort 7 (fun n => decide (2 ≤ n)) 2
        { assocKill := false, dulStopped := false }).1.dulStopped = true ∧
    (associationAbort 7 (fun n => decide (2 ≤ n)) 2
        { assocKill := false, dulStopped := false }).2 =
      [Action.acseAbort 7, Action.dulStopAttempt false,
       Action.dulStopAttempt false, Action.dulStopAttempt true] := by
  have h := abort_stops_dul 7 2 (fun n => decide (2 ≤ n))
    { assocKill := false, dulStopped := false } (by decide)
  exact ⟨h.1, h.2.1, h.2.2.trans (by rfl)⟩

/-- C1: an inbound association request arriving when the active pool already
holds the configured maximum N (so the arriving request makes the count N + 1
at the capacity check) is rejected: ACSE.Accept is called with result
rejected-transient and diagnostic local-limit-exceeded, no association is
established, the worker kills itself without reaching the main loop, and no
SOP class table is built for it. -/
theorem acceptor_capacity_reject (N : Nat) (inp : AcceptorInputs)
    (hnum : inp.numAssociations = poolCountAtCheck N)
    (hmax : inp.maxAssociations = N) :
    (acceptorEstablish inp).actions.head? =
      some (Action.acseAccept (some A_ASSOCIATE_Result_RejectedTransient)
                              (some A_ASSOCIATE_Diag_LocalLimitExceeded)) ∧
    (acceptorEstablish inp).established = false ∧
    (acceptorEstablish inp).state.assocKill = true ∧
    (acceptorEstablish inp).state.dulStopped = true ∧
    (acceptorEstablish inp).entersMainLoop = false ∧
    (acceptorEstablish inp).sopTable = [] := by
  have hgt : inp.numAssociations > inp.maxAssociations := by
    rw [hnum, hmax]
    exact Nat.lt_succ_self N
  simp [acceptorEstablish, hgt, acseAcceptReturnsAssoc]

/-- C1 witness: with two associations counted against a maximum of one, the
arriving request is rejected transiently for the local limit and the worker
exits without establishing. -/
theorem acceptor_capacity_reject_witness :
    (acceptorEstablish
        { numAssociations := 2, maxAssociations := 1, requestOK := true
          acceptedContexts := [] }).actions.head? =
      some (Action.acseAccept (some A_ASSOCIATE_Result_RejectedTransient)
                              (some A_ASSOCIATE_Diag_LocalLimitExceeded)) ∧
    (acceptorEstablish
        { numAssociations := 2, maxAssociations := 1, requestOK := true
          acceptedContexts := [] }).established = false ∧
    (acceptorEstablish
        { numAssociations := 2, maxAssociations := 1, requestOK := true
          acceptedContexts := [] }).state.assocKill = true ∧
    (acceptorEstablish
        { numAssociations := 2, maxAssociations := 1, requestOK := true
          acceptedContexts := [] }).state.dulStopped = true ∧
    (acceptorEstablish
        { numAssociations := 2, maxAssociations := 1, requestOK := true
          acceptedContexts := [] }).entersMainLoop = false ∧
    (acceptorEstablish
        { numAssociations := 2, maxAssociations := 1, requestOK := true
          acceptedContexts := [] }).sopTable = [] :=
  acceptor_capacity_reject 1
    { numAssociations := 2, maxAssociations := 1, requestOK := true
      acceptedContexts := [] } rfl rfl

/-- C4: whenever an acceptor main-loop iteration observes a release request,
an abort, a dead DUL or an expired idle timer, the kill flag is set, the DUL
provider is stopped, and the while loop exits right after that iteration
whatever inputs would have followed. -/
theorem main_loop_teardown (table : List SOPClassEntry) (maxPDU : Nat)
    (inp : LoopInputs) (rest : List LoopInputs) (s : WorkerState)
    (hs : s.assocKill = false)
    (hcond : inp.checkRelease = true ∨ inp.checkAbort = true ∨
             inp.dulAlive = false ∨ inp.idleExpired = true) :
    (mainLoopIter .acceptor table maxPDU inp s).state.assocKill = true ∧
    (mainLoopIter .acceptor table maxPDU inp s).state.dulStopped = true ∧
    runMainLoop .acceptor table maxPDU (inp :: rest) s =
      ((mainLoopIter .acceptor table maxPDU inp s).state,
       (mainLoopIter .acceptor table maxPDU inp s).actions) := by
  obtain ⟨hkeq, hdeq, -⟩ := mainLoopIter_flags table maxPDU inp s
  have hkill : (mainLoopIter .acceptor table maxPDU inp s).state.assocKill =
      true := by
    rw [hkeq]
    rcases hcond with h | h | h | h <;> simp [h]
  have hdul : (mainLoopIter .acceptor table maxPDU inp s).state.dulStopped =
      true := by
    rw [hdeq]
    rcases hcond with h | h | h | h <;> simp [h]
  refine ⟨hkill, hdul, ?_⟩
  by_cases hr : (mainLoopIter .acceptor table maxPDU inp s).returned = true
  · simp [runMainLoop, hs, hr]
  · simp [runMainLoop, hs, hr,
      runMainLoop_of_killed .acceptor table maxPDU rest _ hkill]

/-- C4 witness: an iteration with no traffic whose idle timer has expired sets
the kill flag, stops the DUL, and ends the loop at once even with further
iterations pending. -/
theorem main_loop_teardown_witness :
    (mainLoopIter .acceptor [] 16384
        { recv := none, checkRelease := false, checkAbort := false
          dulAlive := true, idleExpired := true }
        { assocKill := false, dulStopped := false }).state.assocKill = true ∧
    (mainLoopIter .acceptor [] 16384
        { recv := none, checkRelease := false, checkAbort := false
          dulAlive := true, idleExpired := true }
        { assocKill := false, dulStopped := false }).state.dulStopped = true ∧
    runMainLoop .acceptor [] 16384
        [{ recv := none, checkRelease := false, checkAbort := false
           dulAlive := true, idleExpired := true },
         { recv := none, checkRelease := false, checkAbort := false
           dulAlive := true, idleExpired := false }]
        { assocKill := false, dulStopped := false } =
      ((mainLoopIter .acceptor [] 16384
          { recv := none, checkRelease := false, checkAbort := false
            dulAlive := true, idleExpired := true }
          { assocKill := false, dulStopped := false }).state,
       (mainLoopIter .acceptor [] 16384
          { recv := none, checkRelease := false, checkAbort := false
            dulAlive := true, idleExpired := true }
          { assocKill := false, dulStopped := false }).actions) :=
  main_loop_teardown [] 16384
    { recv := none, checkRelease := false, checkAbort := false
      dulAlive := true, idleExpired := true }
    [{ recv := none, checkRelease := false, checkAbort := false
       dulAlive := true, idleExpired := false }]
    { assocKill := false, dulStopped := false } rfl
    (Or.inr (Or.inr (Or.inr rfl)))

/-- C7: when ACSE.Request returns a falsy reply with a response primitive
present, the requestor path fires the rejection callback with the response,
sets AssociationRefused, leaves AssociationEstablished false, kills the DUL
and returns without entering the main loop. -/
theorem requestor_reject_outcome (inp : RequestorInputs) (resp : AssocResponse)
    (hans : inp.ans = false) (hresp : inp.response = some resp) :
    (requestorEstablish inp).refused = some true ∧
    (requestorEstablish inp).established = false ∧
    (requestorEstablish inp).entersMainLoop = false ∧
    Action.dulKill ∈ (requestorEstablish inp).actions ∧
    Action.onAssociationRejected ∈ (requestorEstablish inp).actions ∧
    Action.onAssociationEstablished ∉ (requestorEstablish inp).actions := by
  refine ⟨?_, ?_, ?_, ?_, ?_, ?_⟩ <;>
    simp [requestorEstablish, hans, hresp]

/-- C7 witness: a concrete rejected request yields the refused flag, no
establishment, a fired rejection callback and a killed DUL. -/
theorem requestor_reject_outcome_witness :
    (requestorEstablish
        { acceptable := [], proposed := [], ans := false
          response := some { result := "Rejected Permanent" }
          hasOnAssociateResponse := false, acceptedContexts := [] }).refused =
      some true ∧
    (requestorEstablish
        { acceptable := [], proposed := [], ans := false
          response := some { result := "Rejected Permanent" }
          hasOnAssociateResponse := false, acceptedContexts := [] }).established =
      false ∧
    (requestorEstablish
        { acceptable := [], proposed := [], ans := false
          response := some { result := "Rejected Permanent" }
          hasOnAssociateResponse := false
          acceptedContexts := [] }).entersMainLoop = false ∧
    Action.dulKill ∈ (requestorEstablish
        { acceptable := [], proposed := [], ans := false
          response := some { result := "Rejected Permanent" }
          hasOnAssociateResponse := false, acceptedContexts := [] }).actions ∧
    Action.onAssociationRejected ∈ (requestorEstablish
        { acceptable := [], proposed := [], ans := false
          response := some { result := "Rejected Permanent" }
          hasOnAssociateResponse := false, acceptedContexts := [] }).actions ∧
    Action.onAssociationEstablished ∉ (requestorEstablish
        { acceptable := [], proposed := [], ans := false
          response := some { result := "Rejected Permanent" }
          hasOnAssociateResponse := false, acceptedContexts := [] }).actions :=
  requestor_reject_outcome
    { acceptable := [], proposed := [], ans := false
      response := some { result := "Rejected Permanent" }
      hasOnAssociateResponse := false, acceptedContexts := [] }
    { result := "Rejected Permanent" } rfl rfl

/-- C8: on the acceptor path each lifecycle outcome surfaces through a
callback on the application entity rather than a propagated failure: a
successful Accept fires the accepted callback and then, once negotiation
completes, the established callback; a loop iteration observing a release
request fires the released callback and one observing an abort fires the
aborted callback. -/
theorem acceptor_lifecycle_callbacks (inp : AcceptorInputs)
    (table : List SOPClassEntry) (maxPDU : Nat) (linp : LoopInputs)
    (s : WorkerState) (hok : inp.requestOK = true)
    (hcap : inp.numAssociations ≤ inp.maxAssociations)
    (hrel : linp.checkRelease = true) (habt : linp.checkAbort = true) :
    (acceptorEstablish inp).actions =
      [Action.acseAccept none none, Action.onAssociationAccepted,
       Action.onAssociationEstablished] ∧
    Action.onAssociationReleased ∈
      (mainLoopIter .acceptor table maxPDU linp s).actions ∧
    Action.onAssociationAborted ∈
      (mainLoopIter .acceptor table maxPDU linp s).actions := by
  have hngt : ¬ inp.numAssociations > inp.maxAssociations := Nat.not_lt.mpr hcap
  refine ⟨by simp [acceptorEstablish, hngt, acseAcceptReturnsAssoc, hok],
    ?_, ?_⟩ <;>
      cases hr : linp.recv <;> simp [mainLoopIter, hrel, habt, hr]

/-- C8 witness: under the capacity limit with a well-formed request the trace
is accept callback then established callback; an iteration observing both a
release and an abort fires the released and aborted callbacks. -/
theorem acceptor_lifecycle_callbacks_witness :
    (acceptorEstablish
        { numAssociations := 1, maxAssociations := 5, requestOK := true
          acceptedContexts := [] }).actions =
      [Action.acseAccept none none, Action.onAssociationAccepted,
       Action.onAssociationEstablished] ∧
    Action.onAssociationReleased ∈
      (mainLoopIter .acceptor [] 16384
        { recv := none, checkRelease := true, checkAbort := true
          dulAlive := true, idleExpired := false }
        { assocKill := false, dulStopped := false }).actions ∧
    Action.onAssociationAborted ∈
      (mainLoopIter .acceptor [] 16384
        { recv := none, checkRelease := true, checkAbort := true
          dulAlive := true, idleExpired := false }
        { assocKill := false, dulStopped := false }).actions :=
  acceptor_lifecycle_callbacks
    { numAssociations := 1, maxAssociations := 5, requestOK := true
      acceptedContexts := [] } [] 16384
    { recv := none, checkRelease := true, checkAbort := true
      dulAlive := true, idleExpired := false }
    { assocKill := false, dulStopped := false } rfl (by decide) rfl rfl

/-- C2 counterexample: a completed message on presentation-context id 5 with
an empty negotiated SCP class table (so no registered handler matches) makes
the iteration emit only the SCP dispatch of an unconfigured handler: no
failure status goes to the peer, refuting the claim that the dispatch failure
is reported to the peer via the service's standard failure status. -/
theorem main_loop_nohandler_counterexample :
    scpLookup [] 5 = none ∧
    mainLoopIter .acceptor [] 16384
        { recv := some ({ affectedSOPClassUID := "1.2.840.10008.1.1" }, 5)
          checkRelease := false, checkAbort := false, dulAlive := true
          idleExpired := false }
        { assocKill := false, dulStopped := false } =
      { state := { assocKill := false, dulStopped := false }
        actions := [Action.dispatchSCP
          { cls := UID2SOPClass "1.2.840.10008.1.1", pcid := none
            sopclass := none, transferUID := none, maxpdulength := 16384 }]
        returned := false } ∧
    reportsFailure (mainLoopIter .acceptor [] 16384
        { recv := some ({ affectedSOPClassUID := "1.2.840.10008.1.1" }, 5)
          checkRelease := false, checkAbort := false, dulAlive := true
          idleExpired := false }
        { assocKill := false, dulStopped := false }).actions = false := by
  refine ⟨rfl, ?_, ?_⟩ <;> simp [mainLoopIter, scpLookup, reportsFailure]

/-- C2 amended: when a completed inbound message has no matching entry in the
negotiated SCP class table, the iteration reports nothing to the peer (the
no-match case is a pass), still invokes SCP on a handler built from the
message UID with pcid, sopclass and transfersyntax left unset, and does not
close the association on account of the miss: the kill flag is driven only by
the release, abort, liveness and idle polls. -/
theorem main_loop_nohandler (table : List SOPClassEntry) (maxPDU : Nat)
    (inp : LoopInputs) (s : WorkerState) (msg : Msg) (pcid : Nat)
    (hrecv : inp.recv = some (msg, pcid))
    (hmiss : scpLookup table pcid = none) :
    reportsFailure (mainLoopIter .acceptor table maxPDU inp s).actions =
      false ∧
    Action.dispatchSCP
        { cls := UID2SOPClass msg.affectedSOPClassUID, pcid := none
          sopclass := none, transferUID := none, maxpdulength := maxPDU }
      ∈ (mainLoopIter .acceptor table maxPDU inp s).actions ∧
    (mainLoopIter .acceptor table maxPDU inp s).state.assocKill =
      (s.assocKill || inp.checkRelease || inp.checkAbort || !inp.dulAlive
        || inp.idleExpired) := by
  refine ⟨?_, ?_, (mainLoopIter_flags table maxPDU inp s).1⟩ <;>
    · obtain ⟨recv, cr, ca, da, ie⟩ := inp
      simp only [LoopInputs.recv] at hrecv
      subst hrecv
      cases cr <;> cases ca <;> cases da <;> cases ie <;>
        simp [mainLoopIter, reportsFailure, hmiss, killEffect]

/-- C2 amended witness: a message on context 9 misses a table registering only
context 3; the iteration (which also observes a release) reports no failure,
dispatches the unconfigured handler, and its kill flag comes from the release
poll alone. -/
theorem main_loop_nohandler_witness :
    reportsFailure (mainLoopIter .acceptor
        [{ pcid := 3, sopclass := UID2SOPClass "1.2.840.10008.5.1.4.1.1.2"
           transferUID := "1.2.840.10008.1.2" }] 16384
        { recv := some ({ affectedSOPClassUID := "1.2.840.10008.1.1" }, 9)
          checkRelease := true, checkAbort := false, dulAlive := true
          idleExpired := false }
        { assocKill := false, dulStopped := false }).actions = false ∧
    Action.dispatchSCP
        { cls := UID2SOPClass "1.2.840.10008.1.1", pcid := none
          sopclass := none, transferUID := none, maxpdulength := 16384 }
      ∈ (mainLoopIter .acceptor
        [{ pcid := 3, sopclass := UID2SOPClass "1.2.840.10008.5.1.4.1.1.2"
           transferUID := "1.2.840.10008.1.2" }] 16384
        { recv := some ({ affectedSOPClassUID := "1.2.840.10008.1.1" }, 9)
          checkRelease := true, checkAbort := false, dulAlive := true
          idleExpired := false }
        { assocKill := false, dulStopped := false }).actions ∧
    (mainLoopIter .acceptor
        [{ pcid := 3, sopclass := UID2SOPClass "1.2.840.10008.5.1.4.1.1.2"
           transferUID := "1.2.840.10008.1.2" }] 16384
        { recv := some ({ affectedSOPClassUID := "1.2.840.10008.1.1" }, 9)
          checkRelease := true, checkAbort := false, dulAlive := true
          idleExpired := false }
        { assocKill := false, dulStopped := false }).state.assocKill =
      (false || true || false || !true || false) :=
  main_loop_nohandler
    [{ pcid := 3, sopclass := UID2SOPClass "1.2.840.10008.5.1.4.1.1.2"
       transferUID := "1.2.840.10008.1.2" }] 16384
    { recv := some ({ affectedSOPClassUID := "1.2.840.10008.1.1" }, 9)
      checkRelease := true, checkAbort := false, dulAlive := true
      idleExpired := false }
    { assocKill := false, dulStopped := false }
    { affectedSOPClassUID := "1.2.840.10008.1.1" } 9 rfl (by decide)

/-- C3 counterexample: context 1 is negotiated with abstract syntax CT Image
Storage, yet a message on that context whose AffectedSOPClassUID is the
Verification class is dispatched to the Verification handler class, not to
the class registered for the context in the accepted-context table, refuting
the claim that the handler invoked is the one registered for the negotiated
abstract syntax of the message's presentation context. -/
theorem main_loop_dispatch_counterexample :
    dispatchedHandler (mainLoopIter .acceptor
        (buildSOPClasses
          [{ pcid := 1, abstractUID := "1.2.840.10008.5.1.4.1.1.2"
             transferUID := "1.2.840.10008.1.2" }]) 16384
        { recv := some ({ affectedSOPClassUID := "1.2.840.10008.1.1" }, 1)
          checkRelease := false, checkAbort := false, dulAlive := true
          idleExpired := false }
        { assocKill := false, dulStopped := false }).actions =
      some { cls := UID2SOPClass "1.2.840.10008.1.1"
             pcid := some 1
             sopclass := some (UID2SOPClass "1.2.840.10008.5.1.4.1.1.2")
             transferUID := some "1.2.840.10008.1.2"
             maxpdulength := 16384 } ∧
    UID2SOPClass "1.2.840.10008.1.1" ≠
      UID2SOPClass "1.2.840.10008.5.1.4.1.1.2" := by
  exact ⟨by decide, by decide⟩

/-- C3 amended: the handler the main loop invokes is constructed from the
message's AffectedSOPClassUID; the accepted-context table is consulted by
presentation-context id only to assign the pcid, registered class and
transfer syntax attributes on that object (unset on a miss); and every
iteration also polls release, abort, DUL liveness and idle-timer expiry,
whose outcomes alone drive the kill flag, the abort poll alone ending the
iteration by return. -/
theorem main_loop_dispatch (table : List SOPClassEntry) (maxPDU : Nat)
    (inp : LoopInputs) (s : WorkerState) (msg : Msg) (pcid : Nat)
    (hrecv : inp.recv = some (msg, pcid)) :
    dispatchedHandler (mainLoopIter .acceptor table maxPDU inp s).actions =
      some { cls := UID2SOPClass msg.affectedSOPClassUID
             pcid := (scpLookup table pcid).map (fun e => e.pcid)
             sopclass := (scpLookup table pcid).map (fun e => e.sopclass)
             transferUID := (scpLookup table pcid).map (fun e => e.transferUID)
             maxpdulength := maxPDU } ∧
    (mainLoopIter .acceptor table maxPDU inp s).state.assocKill =
      (s.assocKill || inp.checkRelease || inp.checkAbort || !inp.dulAlive
        || inp.idleExpired) ∧
    (mainLoopIter .acceptor table maxPDU inp s).returned = inp.checkAbort := by
  refine ⟨?_, (mainLoopIter_flags table maxPDU inp s).1,
    (mainLoopIter_flags table maxPDU inp s).2.2⟩
  obtain ⟨recv, cr, ca, da, ie⟩ := inp
  simp only [LoopInputs.recv] at hrecv
  subst hrecv
  cases cr <;> cases ca <;> cases da <;> cases ie <;>
    simp [mainLoopIter, dispatchedHandler, killEffect]

/-- C3 amended witness: at a concrete iteration the dispatched handler class
is the message's Verification class while the table lookup for context 1
configures the registered CT Image Storage class and transfer syntax, the
kill flag follows the polls and no return fires. -/
theorem main_loop_dispatch_witness :
    dispatchedHandler (mainLoopIter .acceptor
        [{ pcid := 1, sopclass := UID2SOPClass "1.2.840.10008.5.1.4.1.1.2"
           transferUID := "1.2.840.10008.1.2" }] 16384
        { recv := some ({ affectedSOPClassUID := "1.2.840.10008.1.1" }, 1)
          checkRelease := false, checkAbort := false, dulAlive := true
          idleExpired := false }
        { assocKill := false, dulStopped := false }).actions =
      some { cls := UID2SOPClass "1.2.840.10008.1.1"
             pcid := (scpLookup
               [{ pcid := 1
                  sopclass := UID2SOPClass "1.2.840.10008.5.1.4.1.1.2"
                  transferUID := "1.2.840.10008.1.2" }] 1).map
                 (fun e => e.pcid)
             sopclass := (scpLookup
               [{ pcid := 1
                  sopclass := UID2SOPClass "1.2.840.10008.5.1.4.1.1.2"
                  transferUID := "1.2.840.10008.1.2" }] 1).map
                 (fun e => e.sopclass)
             transferUID := (scpLookup
               [{ pcid := 1
                  sopclass := UID2SOPClass "1.2.840.10008.5.1.4.1.1.2"
                  transferUID := "1.2.840.10008.1.2" }] 1).map
                 (fun e => e.transferUID)
             maxpdulength := 16384 } ∧
    (mainLoopIter .acceptor
        [{ pcid := 1, sopclass := UID2SOPClass "1.2.840.10008.5.1.4.1.1.2"
           transferUID := "1.2.840.10008.1.2" }] 16384
        { recv := some ({ affectedSOPClassUID := "1.2.840.10008.1.1" }, 1)
          checkRelease := false, checkAbort := false, dulAlive := true
          idleExpired := false }
        { assocKill := false, dulStopped := false }).state.assocKill =
      (false || false || false || !true || false) ∧
    (mainLoopIter .acceptor
        [{ pcid := 1, sopclass := UID2SOPClass "1.2.840.10008.5.1.4.1.1.2"
           transferUID := "1.2.840.10008.1.2" }] 16384
        { recv := some ({ affectedSOPClassUID := "1.2.840.10008.1.1" }, 1)
          checkRelease := false, checkAbort := false, dulAlive := true
          idleExpired := false }
        { assocKill := false, dulStopped := false }).returned = false :=
  main_loop_dispatch
    [{ pcid := 1, sopclass := UID2SOPClass "1.2.840.10008.5.1.4.1.1.2"
       transferUID := "1.2.840.10008.1.2" }] 16384
    { recv := some ({ affectedSOPClassUID := "1.2.840.10008.1.1" }, 1)
      checkRelease := false, checkAbort := false, dulAlive := true
      idleExpired := false }
    { assocKill := false, dulStopped := false }
    { affectedSOPClassUID := "1.2.840.10008.1.1" } 1 rfl

/-- C6 counterexample: with one acceptable presentation context and two
proposed presentation contexts, ACSE.Request is passed two proposed contexts
but only one role-selection item, refuting the claim that exactly one item is
generated per proposed presentation context. -/
theorem requestor_role_items_counterexample :
    (requestSent (requestorEstablish
        { acceptable := [{ sopClassUID := "1.2.840.10008.1.1"
                           tsUIDs := ["1.2.840.10008.1.2"] }]
          proposed :=
            [{ pcid := 1, abstractUID := "1.2.840.10008.1.1"
               tsUIDs := ["1.2.840.10008.1.2"] },
             { pcid := 3, abstractUID := "1.2.840.10008.5.1.4.1.1.2"
               tsUIDs := ["1.2.840.10008.1.2"] }]
          ans := true, response := some { result := "Accepted" }
          hasOnAssociateResponse := false
          acceptedContexts := [] }).actions).map
        (fun pe => (pe.1.length, pe.2.length)) =
      some (2, 1) := by
  decide

/-- C6 amended: the requestor path generates exactly one role-selection item
per entry of the acceptable presentation-context list, each carrying that
entry's SOP class UID with SCU role 0 and SCP role 1, and passes these items
to ACSE.Request together with the proposed presentation-context definition
list, which is a different list. -/
theorem requestor_role_items (inp : RequestorInputs) :
    requestSent (requestorEstablish inp).actions =
      some (inp.proposed, buildRoleExt inp.acceptable) ∧
    (buildRoleExt inp.acceptable).length = inp.acceptable.length ∧
    (buildRoleExt inp.acceptable).map (fun item => item.sopClassUID) =
      inp.acceptable.map (fun a => a.sopClassUID) ∧
    (buildRoleExt inp.acceptable).map
        (fun item => (item.scuRole, item.scpRole)) =
      List.replicate inp.acceptable.length ((0 : Nat), (1 : Nat)) := by
  refine ⟨?_, ?_, ?_, ?_⟩
  · by_cases hans : inp.ans = true <;>
      simp [requestorEstablish, requestSent, hans]
  · simp [buildRoleExt]
  · simp [buildRoleExt]
  · induction inp.acceptable with
    | nil => rfl
    | cons a rest ih => simpa [buildRoleExt, List.replicate] using ih

end Theorems

end Pynetdicom
